import Mathlib

/-!
Verification of the `lestrrat-go/rotating` self-rotating file writer.

The Go sources are embedded shallowly:
* `src/clock.go` — civil-time truncation (`Location`, `Time`, `goTruncate`, `truncate`);
* the main package file — rotation decision (`sizeExceededModel`,
  `intervalExceededModel`), the writer swap (`rotateLoop`, `getWriterM`,
  `writeM`), construction (`NewFileM`), close (`closeM`) and the retention
  sweep (`purgeSplit`, `purgeOld`).

Machine integers are modelled as `Int`/`Nat`; `time.Time` is a civil
(wall-clock) nanosecond count paired with a location; effects of the
filesystem and of the throttling timer enter as explicit parameters
(`StatRes`, `CreateRes`, `WriteEnv`).
-/

namespace Rotating

/-- Model of Go `*time.Location` as used by this package: the dedicated
`time.UTC` location (compared by pointer in `clock.go`), or a fixed-offset
zone with the given offset (nanoseconds east of UTC). -/
inductive Location
  | utc
  | fixed (offset : Int)
deriving DecidableEq

/-- Offset of a location in nanoseconds. `time.UTC` has offset 0. -/
def Location.offset : Location → Int
  | .utc => 0
  | .fixed o => o

/-- Model of Go `time.Time`: `wall` is the civil (wall-clock) reading in the
location, counted in nanoseconds from the civil zero reference
(Jan 1, year 1, 00:00:00); `loc` is the attached location. The civil
calendar fields (year, month, ..., nanosecond) of a `time.Time` are in
bijection with this single count, so `time.Date(t.Year(), ..., loc)` is
modelled by reusing `wall` under a new location. -/
structure Time where
  wall : Int
  loc : Location
deriving DecidableEq

/-- Absolute instant of a time (nanoseconds from the zero time, which is
Jan 1, year 1, 00:00:00 UTC): the wall reading minus the zone offset. -/
def Time.abs (t : Time) : Int := t.wall - t.loc.offset

/-- Go `time.Time.Equal`: two times are equal when they denote the same
absolute instant, regardless of location. -/
def Time.equal (a b : Time) : Bool := a.abs == b.abs

/-- Go `time.Time.Truncate`: for a positive duration, round the absolute
instant down to a multiple of `d` since the zero time; a non-positive
duration leaves the time unchanged. -/
def goTruncate (t : Time) (d : Int) : Time :=
  if d ≤ 0 then t
  else { wall := t.wall - Time.abs t % d, loc := t.loc }

/-- The package's `truncate` (src/clock.go lines 27-51): a UTC time is
truncated directly; any other time has its civil fields reinterpreted in
UTC (`time.Date(t.Year(), ..., time.UTC)`), is truncated there, and the
resulting civil fields are placed back into the original location. -/
def truncate (t : Time) (interval : Int) : Time :=
  match t.loc with
  | .utc => goTruncate t interval
  | .fixed _ =>
    let u := goTruncate { wall := t.wall, loc := Location.utc } interval
    { wall := u.wall, loc := t.loc }

/-- Result of `os.Stat` on the current filename, as consumed by
`sizeExceeded`: the file may be missing (`os.IsNotExist`), the stat may
fail for another reason, or it succeeds reporting a size. -/
inductive StatRes
  | notFound
  | otherErr
  | ok (size : Int)
deriving DecidableEq

/-- The throttled size probe `sizeExceeded` (main file lines 262-303) as a
function of its inputs: `checkDue` is whether the `nextCheck` timer channel
fired (before the deadline the probe returns false unconditionally),
`filePresent` is whether `f.file` is non-nil, and `stat` is the outcome of
`os.Stat(f.filename)`. A missing file reports exceeded; any other stat
failure reports false; otherwise the result is
`maxFileSize >= 0 && fi.Size() >= maxFileSize`. -/
def sizeExceededModel (checkDue filePresent : Bool) (maxFileSize : Int)
    (stat : StatRes) : Bool :=
  if !checkDue then false
  else if !filePresent then false
  else
    match stat with
    | .notFound => true
    | .otherErr => false
    | .ok size => decide (0 ≤ maxFileSize) && decide (maxFileSize ≤ size)

/-- State of the active backing writer: the `bufferedWriter` wrapping the
`*os.File`. `buffered` is the byte count sitting in the `bufio.Writer`
buffer; `closed` is whether the underlying file has been closed. -/
structure WriterHandle where
  buffered : Nat
  closed : Bool
deriving DecidableEq

/-- The backoff policy field. The constructor always assigns
`backoff.Null()` (a single-attempt policy) and no option rewires it. -/
inductive BackoffPolicy
  | null
deriving DecidableEq

/-- Mutable state of a `*File` that the rotation logic reads and writes.
The clock, the timer channel and the filesystem are kept outside (they
arrive through `WriteEnv`); `canceled` mirrors whether the derived context
has been canceled by `Close`. -/
structure FileState where
  baseTime : Time
  filename : String
  generation : Int
  file : Option WriterHandle
  maxInterval : Int
  maxFileSize : Int
  maxAge : Int
  checkInterval : Int
  rotationCount : Int
  symlink : String
  backoff : BackoffPolicy
  canceled : Bool
deriving DecidableEq

/-- The interval probe `intervalExceeded` (lines 305-307):
`!f.baseTime.Equal(truncate(f.clock.Now(), f.maxInterval))`. -/
def intervalExceededModel (st : FileState) (now : Time) : Bool :=
  !(Time.equal st.baseTime (truncate now st.maxInterval))

/-- Outcome of one `createFile` attempt inside the retry loop; a failure
carries an identifier for the underlying error. -/
inductive CreateRes
  | ok
  | fail (id : Nat)
deriving DecidableEq

/-- Error values produced on the write path, mirroring the `pkg/errors`
wrapping structure: `underlying` is a raw creation error, and the three
wrappers correspond to the messages `failed to create file %s` (in
`rotateFile`), `failed to rotate file` (in `getWriter`) and
`failed to obtain file handle` (in `Write`). -/
inductive Err
  | underlying (id : Nat)
  | fileClosed
  | wrapCreateFailed (fn : String) (e : Err)
  | wrapRotateFailed (e : Err)
  | wrapObtainFailed (e : Err)
deriving DecidableEq

/-- Per-call environment of a `Write`: the clock reading, whether the
throttle timer fired, the stat outcome the size probe would see, and the
outcomes of the successive `createFile` attempts granted by
`backoff.Continue` (the Null policy grants one while the context lives,
none once it is canceled). -/
structure WriteEnv where
  now : Time
  checkDue : Bool
  stat : StatRes
  attempts : List CreateRes
deriving DecidableEq

/-- The retry loop of `rotateFile` (lines 326-364). Each failed attempt
records the last error and continues; a successful attempt finalizes the
previous handle (its flush and close are external effects on the old file)
and installs a fresh buffered writer plus the new filename. When the
attempts are exhausted the state is returned unchanged together with
`errors.Wrapf(lastError, ...)`, which is nil when no attempt ran
(`errors.Wrapf` of a nil error is nil). -/
def rotateLoop (st : FileState) (fn : String) :
    List CreateRes → Option Nat → FileState × Option Err
  | [], lastErr =>
    (st, lastErr.map fun e => Err.wrapCreateFailed fn (Err.underlying e))
  | CreateRes.ok :: _, _ =>
    ({ st with file := some { buffered := 0, closed := false }, filename := fn },
      none)
  | CreateRes.fail e :: rest, _ => rotateLoop st fn rest (some e)

/-- The body of `rotateFile` for an empty symlink configuration (then
`makeSymlink` returns nil immediately and the `purgeOld` error is
discarded), starting the loop with no recorded error. -/
def rotateFileM (st : FileState) (fn : String) (attempts : List CreateRes) :
    FileState × Option Err :=
  rotateLoop st fn attempts none

/-- The naming policy of `getWriter` (lines 446-453): an interval trigger
resets the generation and uses the bare templated name; a size-only
trigger increments the generation and appends `.N` exactly when the
templated name equals the currently open filename. Returns the new
generation together with the target filename. -/
def nameForRotation (st : FileState) (intervalEx : Bool) (fn0 : String) :
    Int × String :=
  if intervalEx then (0, fn0)
  else if fn0 == st.filename then
    (st.generation + 1, fn0 ++ "." ++ toString (st.generation + 1))
  else (st.generation, fn0)

/-- The `getWriter` step (lines 440-460). `format` is the strftime
collaborator `f.pattern.FormatString`. On a trigger, `f.baseTime` and
`f.generation` are assigned before `rotateFile` runs; a rotation error is
wrapped and returned, otherwise the (possibly nil) active writer is
returned. -/
def getWriterM (format : Time → String) (st : FileState) (env : WriteEnv) :
    FileState × Except Err (Option WriterHandle) :=
  let sizeEx := sizeExceededModel env.checkDue st.file.isSome st.maxFileSize env.stat
  let intervalEx := intervalExceededModel st env.now
  if sizeEx || intervalEx then
    let newBase := truncate env.now st.maxInterval
    let gs := nameForRotation st intervalEx (format newBase)
    let st1 := { st with baseTime := newBase, generation := gs.1 }
    match rotateFileM st1 gs.2 env.attempts with
    | (st2, none) => (st2, Except.ok st2.file)
    | (st2, some e) => (st2, Except.error (Err.wrapRotateFailed e))
  else (st, Except.ok st.file)

/-- Size of the `bufio.Writer` buffer created by `bufio.NewWriter`. -/
def bufSize : Nat := 4096

/-- One `Write` on the `bufferedWriter` (`bufio.Writer` over the
`*os.File`): data fitting in the buffer is only copied and never reaches
the base file; otherwise the buffer is flushed through to the base, which
fails when the base file is closed (an interior large write goes to the
base directly, leaving only the remainder buffered). -/
def handleWrite (h : WriterHandle) (n : Nat) : WriterHandle × Nat × Option Err :=
  if h.buffered + n ≤ bufSize then
    ({ h with buffered := h.buffered + n }, n, none)
  else if h.closed then
    if h.buffered = 0 then (h, 0, some Err.fileClosed)
    else ({ h with buffered := bufSize }, bufSize - h.buffered, some Err.fileClosed)
  else if h.buffered = 0 then
    ({ h with buffered := 0 }, n, none)
  else if h.buffered + n - bufSize ≤ bufSize then
    ({ h with buffered := h.buffered + n - bufSize }, n, none)
  else ({ h with buffered := 0 }, n, none)

/-- Observable outcome of a `Write` call: a nil active writer makes
`w.Write(p)` panic on the nil interface; otherwise the byte count and
optional error are returned. -/
inductive WriteRes
  | panicNil
  | res (n : Nat) (e : Option Err)
deriving DecidableEq

/-- The `Write` method (lines 431-438): obtain the writer, wrapping a
failure as `failed to obtain file handle`, then write through the handle. -/
def writeM (format : Time → String) (st : FileState) (env : WriteEnv) (n : Nat) :
    FileState × WriteRes :=
  match getWriterM format st env with
  | (st1, Except.error e) => (st1, WriteRes.res 0 (some (Err.wrapObtainFailed e)))
  | (st1, Except.ok none) => (st1, WriteRes.panicNil)
  | (st1, Except.ok (some h)) =>
    let r := handleWrite h n
    ({ st1 with file := some r.1 }, WriteRes.res r.2.1 r.2.2)

/-- The `finalizeWriter` helper (lines 319-324) applied to the buffered
writer: flush (a flush onto an already closed base file fails and is
ignored, leaving the buffer), sync, then close, all errors discarded. -/
def finalizeHandle (h : WriterHandle) : WriterHandle :=
  if h.closed then h
  else { buffered := 0, closed := true }

/-- The `Close` method (lines 254-260): cancel the context, finalize the
active handle when present, and always return nil. -/
def closeM (st : FileState) : FileState × Option Err :=
  let st1 := { st with canceled := true }
  match st1.file with
  | none => (st1, none)
  | some h => ({ st1 with file := some (finalizeHandle h) }, none)

/-- Options accepted by `NewFile` (option file of the package). The clock
option only replaces the clock collaborator and touches no state field. -/
inductive OptionVal
  | withClock
  | withCheckInterval (v : Int)
  | withMaxFileSize (v : Int)
  | withMaxInterval (v : Int)
  | withSymlink (s : String)
  | withRotationCount (v : Int)
deriving DecidableEq

/-- Configuration accumulator of `NewFile`'s option loop, with the
defaults set before the loop (lines 178-184): maxInterval one hour,
everything else zero/empty. -/
structure Config where
  checkInterval : Int
  maxInterval : Int
  maxFileSize : Int
  symlink : String
  rotationCount : Int
deriving DecidableEq

/-- Nanoseconds in one hour, the default `maxInterval`. -/
def hourNs : Int := 3600000000000

/-- Nanoseconds in the `defaultCheckInterval` of five minutes. -/
def defaultCheckIntervalNs : Int := 300000000000

/-- One iteration of the option switch in `NewFile` (lines 185-200). -/
def applyOpt (c : Config) : OptionVal → Config
  | .withClock => c
  | .withCheckInterval v => { c with checkInterval := v }
  | .withMaxFileSize v => { c with maxFileSize := v }
  | .withMaxInterval v => { c with maxInterval := v }
  | .withSymlink s => { c with symlink := s }
  | .withRotationCount v => { c with rotationCount := v }

/-- The state built by a successful `NewFile` (lines 177-252; the strftime
pattern parse is the external collaborator and assumed valid). No file is
opened: `file` is nil, `baseTime`, `filename`, `generation` and `maxAge`
stay at their zero values, the backoff field is assigned `backoff.Null()`,
and the check interval defaults to five minutes only when a positive max
file size was configured without an explicit check interval. -/
def NewFileM (opts : List OptionVal) : FileState :=
  let c := opts.foldl applyOpt
    { checkInterval := 0, maxInterval := hourNs, maxFileSize := 0,
      symlink := "", rotationCount := 0 }
  let ci := if c.maxFileSize > 0 ∧ c.checkInterval ≤ 0 then defaultCheckIntervalNs
            else c.checkInterval
  { baseTime := { wall := 0, loc := Location.utc }
  , filename := ""
  , generation := 0
  , file := none
  , maxInterval := c.maxInterval
  , maxFileSize := c.maxFileSize
  , maxAge := 0
  , checkInterval := ci
  , rotationCount := c.rotationCount
  , symlink := c.symlink
  , backoff := BackoffPolicy.null
  , canceled := false }

/-- Character comparison by code point; on the UTF-8 encodings Go works
with, byte-lexicographic order coincides with code-point order. -/
def charLt (a b : Char) : Bool := a.val < b.val

/-- Lexicographic strict order on character lists. -/
def lexLt : List Char → List Char → Bool
  | [], [] => false
  | [], _ :: _ => true
  | _ :: _, [] => false
  | a :: as, b :: bs => charLt a b || (a == b && lexLt as bs)

/-- Go `strings.Compare(a, b) < 0`, the comparator of the purge sort. -/
def strLtB (a b : String) : Bool := lexLt a.data b.data

/-- Reflexive closure used to drive the insertion sort. -/
def strLeB (a b : String) : Bool := !(strLtB b a)

/-- Go `strings.HasSuffix`. -/
def endsWithB (s t : String) : Bool := t.data.isSuffixOf s.data

/-- Result of `os.Lstat` on a purge candidate: modification time and
whether the mode has the symlink bit. -/
structure FileInfo where
  modTime : Int
  isSymlink : Bool
deriving DecidableEq

/-- The age/mode partition loop of `purgeOld` (lines 534-552), walking the
sorted paths in order: a file strictly newer than the cutoff is appended
to the purge list when `maxAge > 0`; a symlink-mode entry is skipped;
everything else joins the count pool. Returns (toPurge, candidates). -/
def purgeSplit (statFn : String → Option FileInfo) (maxAge cutoff : Int) :
    List String → List String × List String
  | [] => ([], [])
  | p :: rest =>
    let r := purgeSplit statFn maxAge cutoff rest
    match statFn p with
    | none => r
    | some fi =>
      if maxAge > 0 ∧ cutoff < fi.modTime then (p :: r.1, r.2)
      else if fi.isSymlink then r
      else (r.1, p :: r.2)

/-- The retention sweep `purgeOld` (lines 485-576) up to the selection of
the files to delete (the removals themselves are fire-and-forget).
`paths` is the glob result (`filepath.Glob` yields each path once),
`statFn` the `os.Lstat` outcomes, `readlinkRes` the `os.Readlink` outcome
for the configured symlink. Paths suffixed `_lock`/`_symlink` and
unstatable paths are dropped; the symlink target is deleted from the map
and remembered as protected; the rest is sorted by name; the age/mode
partition runs; finally, with a positive rotation count `c` (minus one
when protected), the `len - c` smallest candidates are marked.
`purgePool` is the enumeration stage: suffix/stat filtering, deletion of
the symlink target from the map, and the lexicographic sort. -/
def purgePool (paths : List String) (statFn : String → Option FileInfo)
    (symlink : String) (readlinkRes : Option String) : List String :=
  let stats0 := paths.filter fun p =>
    (!endsWithB p "_lock") && (!endsWithB p "_symlink") && (statFn p).isSome
  let pruned :=
    if symlink = "" then stats0
    else
      match readlinkRes with
      | some dst => stats0.filter fun p => p ≠ dst
      | none => stats0
  List.insertionSort (fun a b => strLeB a b = true) pruned

/-- The count of files the count stage keeps: `rotationCount`, decremented
once when the `protected` flag was set, i.e. when a symlink is configured
and its `os.Readlink` succeeded (lines 554-560). -/
def keepCount (rotationCount : Int) (symlink : String)
    (readlinkRes : Option String) : Int :=
  rotationCount - (if decide (symlink ≠ "") && readlinkRes.isSome then 1 else 0)

def purgeOld (paths : List String) (statFn : String → Option FileInfo)
    (symlink : String) (readlinkRes : Option String)
    (maxAge now rotationCount : Int) : List String :=
  let sorted := purgePool paths statFn symlink readlinkRes
  let split := purgeSplit statFn maxAge (now - maxAge) sorted
  if rotationCount > 0 then
    let c := keepCount rotationCount symlink readlinkRes
    if (split.2.length : Int) > c then
      split.1 ++ split.2.take ((split.2.length : Int) - c).toNat
    else split.1
  else split.1

/-- Event order of the critical section in `rotateFile`'s success path
(lines 342-351), statement by statement: when an old handle is present it
is finalized (flushed and closed) first, then the new handle is assigned
to `f.file`, then `f.filename` is recorded. -/
inductive SwapEvent
  | finalizeOld
  | installNew
  | recordFilename
deriving DecidableEq

/-- The critical-section trace of a successful swap. -/
def swapCriticalSection (hasOldHandle : Bool) : List SwapEvent :=
  (if hasOldHandle then [SwapEvent.finalizeOld] else [])
    ++ [SwapEvent.installNew, SwapEvent.recordFilename]

/-- Outcome of a `Write` whose rotation exhausts only-failing creation
attempts: the call reports the wrapped chain around the last underlying
error; filename and handle are untouched, while `baseTime` and
`generation` were already advanced to the values of the attempted
rotation; and any later write that triggers no new rotation and fits the
buffer succeeds against the previous handle. -/
def writeAllFailPost (format : Time → String) (st : FileState) (env : WriteEnv)
    (n : Nat) (fails : List Nat) : Prop :=
  (writeM format st env n).2
      = WriteRes.res 0 (some (Err.wrapObtainFailed (Err.wrapRotateFailed
          (Err.wrapCreateFailed
            (nameForRotation st (intervalExceededModel st env.now)
              (format (truncate env.now st.maxInterval))).2
            (Err.underlying (fails.getLastD 0)))))) ∧
  (writeM format st env n).1.filename = st.filename ∧
  (writeM format st env n).1.file = st.file ∧
  (writeM format st env n).1.baseTime = truncate env.now st.maxInterval ∧
  (writeM format st env n).1.generation
      = (nameForRotation st (intervalExceededModel st env.now)
          (format (truncate env.now st.maxInterval))).1 ∧
  ∀ (env2 : WriteEnv) (m : Nat) (h : WriterHandle), st.file = some h →
    h.buffered + m ≤ bufSize → env2.checkDue = false →
    intervalExceededModel (writeM format st env n).1 env2.now = false →
    (writeM format (writeM format st env n).1 env2 m).2 = WriteRes.res m none

/-- Constant filename template, as produced by a pattern with no format
specifiers (for example the literal pattern `app.log`). -/
def fmtApp : Time → String := fun _ => "app.log"

/-- A writer state in mid-life: slot base 200 with hourly-slot stand-in
interval 100, an open handle on `app.log`, no size limit, no symlink. -/
def stBase : FileState :=
  { baseTime := { wall := 200, loc := Location.utc }
  , filename := "app.log"
  , generation := 0
  , file := some { buffered := 0, closed := false }
  , maxInterval := 100
  , maxFileSize := 0
  , maxAge := 0
  , checkInterval := 0
  , rotationCount := 0
  , symlink := ""
  , backoff := BackoffPolicy.null
  , canceled := false }

/-- Environment of a write in the next slot whose single creation attempt
fails with underlying error 7. -/
def envFailCreate : WriteEnv :=
  { now := { wall := 350, loc := Location.utc }
  , checkDue := false
  , stat := StatRes.otherErr
  , attempts := [CreateRes.fail 7] }

/-- `stBase` with a 10-byte size limit, an explicit check interval, and 11
bytes already written to the current file. -/
def stSized : FileState :=
  { stBase with
      maxFileSize := 10
      checkInterval := 1
      file := some { buffered := 11, closed := false } }

/-- Environment of a size-triggered write in the same slot: the throttle
is due, the stat sees the 11-byte file, and creation succeeds. -/
def envSized : WriteEnv :=
  { now := { wall := 250, loc := Location.utc }
  , checkDue := true
  , stat := StatRes.ok 11
  , attempts := [CreateRes.ok] }

/-- Environment of a write in the same slot with the throttle not due and
no creation attempt granted (canceled context). -/
def envQuiet : WriteEnv :=
  { now := { wall := 250, loc := Location.utc }
  , checkDue := false
  , stat := StatRes.otherErr
  , attempts := [] }

/-- Glob result used for the retention-count witness: seven rotated
files. -/
def pathsSeven : List String :=
  ["d.log", "b.log", "f.log", "a.log", "c.log", "g.log", "e.log"]

/-- Stat outcomes for the retention-count witness: every path statable,
none with the symlink mode bit. -/
def statPlain : String → Option FileInfo :=
  fun _ => some { modTime := 0, isSymlink := false }

theorem truncate_wall (t : Time) (I : Int) (hI : 0 < I) :
    truncate t I = { wall := t.wall - t.wall % I, loc := t.loc } := by
  cases t with
  | mk w loc =>
    cases loc <;>
      simp [truncate, goTruncate, Time.abs, Location.offset, not_le.mpr hI]

/-- Claim C2: for every timestamp carrying a zone and every positive
interval `I`, `truncate` returns the greatest multiple of `I` measured in
the civil (wall-clock) fields of the timestamp's zone that does not exceed
the timestamp, keeping the zone; and a fixed-offset zone truncates to the
same civil reading regardless of its offset (here compared against the
reading obtained in the original zone). -/
theorem truncate_civil_greatest (t : Time) (I o : Int) (hI : 0 < I) :
    (truncate t I).loc = t.loc ∧
    (truncate t I).wall = I * (t.wall / I) ∧
    I ∣ (truncate t I).wall ∧
    (truncate t I).wall ≤ t.wall ∧
    t.wall < (truncate t I).wall + I ∧
    (truncate { wall := t.wall, loc := Location.fixed o } I).wall
      = (truncate t I).wall := by
  have hwall := truncate_wall t I hI
  have hwall' := truncate_wall { wall := t.wall, loc := Location.fixed o } I hI
  have hdm := Int.ediv_add_emod t.wall I
  have hnn : 0 ≤ t.wall % I := Int.emod_nonneg t.wall (ne_of_gt hI)
  have hlt : t.wall % I < I := Int.emod_lt_of_pos t.wall hI
  refine ⟨by rw [hwall], by rw [hwall]; dsimp; omega, ?_, by rw [hwall]; dsimp; omega,
    by rw [hwall]; dsimp; omega, by rw [hwall, hwall']⟩
  refine ⟨t.wall / I, ?_⟩
  rw [hwall]; dsimp; omega

/-- Witness for C2 at a concrete fixed-offset time. -/
theorem truncate_civil_greatest_witness :
    (truncate { wall := 250, loc := Location.fixed 9 } 100).loc = Location.fixed 9 ∧
    (truncate { wall := 250, loc := Location.fixed 9 } 100).wall = 100 * (250 / 100) ∧
    (100 : Int) ∣ (truncate { wall := 250, loc := Location.fixed 9 } 100).wall ∧
    (truncate { wall := 250, loc := Location.fixed 9 } 100).wall ≤ 250 ∧
    (250 : Int) < (truncate { wall := 250, loc := Location.fixed 9 } 100).wall + 100 ∧
    (truncate { wall := 250, loc := Location.fixed 7 } 100).wall
      = (truncate { wall := 250, loc := Location.fixed 9 } 100).wall :=
  truncate_civil_greatest { wall := 250, loc := Location.fixed 9 } 100 7 (by decide)

theorem sizeExceededModel_notDue (b : Bool) (mfs : Int) (s : StatRes) :
    sizeExceededModel false b mfs s = false := rfl

theorem rotateLoop_allFail (st : FileState) (fn : String) :
    ∀ (fails : List Nat) (acc : Option Nat), fails ≠ [] →
      rotateLoop st fn (fails.map CreateRes.fail) acc
        = (st, some (Err.wrapCreateFailed fn (Err.underlying (fails.getLastD 0)))) := by
  intro fails
  induction fails with
  | nil => intro acc h; exact absurd rfl h
  | cons e rest ih =>
    intro acc _
    cases rest with
    | nil => simp [rotateLoop]
    | cons e2 r2 =>
      have h2 : (e2 :: r2 : List Nat) ≠ [] := by simp
      have hrec := ih (some e) h2
      simp only [List.map, rotateLoop] at hrec ⊢
      rw [hrec]
      simp [List.getLastD_cons]

theorem writeM_noTrigger (format : Time → String) (st : FileState) (env : WriteEnv)
    (n : Nat) (h : WriterHandle)
    (hfile : st.file = some h) (hdue : env.checkDue = false)
    (hint : intervalExceededModel st env.now = false)
    (hbuf : h.buffered + n ≤ bufSize) :
    writeM format st env n
      = ({ st with file := some { h with buffered := h.buffered + n } },
          WriteRes.res n none) := by
  simp only [writeM, getWriterM, hdue, hint, sizeExceededModel_notDue, Bool.or_self]
  simp only [Bool.false_eq_true, if_false, hfile, handleWrite, if_pos hbuf]

theorem purgeSplit_clean (statFn : String → Option FileInfo) (maxAge cutoff : Int)
    (hage : maxAge ≤ 0) :
    ∀ l : List String, (∀ p ∈ l, ∃ fi, statFn p = some fi ∧ fi.isSymlink = false) →
      purgeSplit statFn maxAge cutoff l = ([], l) := by
  intro l
  induction l with
  | nil => intro _; rfl
  | cons p rest ih =>
    intro h
    obtain ⟨fi, hfi, hsym⟩ := h p (by simp)
    have hrest := ih (fun q hq => h q (by simp [hq]))
    simp only [purgeSplit, hrest, hfi]
    rw [if_neg (fun hc => absurd hc.1 (by omega)), hsym]
    simp

theorem mem_purgePool (paths : List String) (statFn : String → Option FileInfo)
    (symlink : String) (readlinkRes : Option String) (p : String)
    (hp : p ∈ purgePool paths statFn symlink readlinkRes) : p ∈ paths := by
  unfold purgePool at hp
  have hp1 := (List.perm_insertionSort _ _).mem_iff.mp hp
  by_cases hs : symlink = ""
  · rw [if_pos hs] at hp1
    exact (List.mem_filter.mp hp1).1
  · rw [if_neg hs] at hp1
    cases readlinkRes with
    | none => exact (List.mem_filter.mp hp1).1
    | some dst =>
      exact (List.mem_filter.mp (List.mem_filter.mp hp1).1).1

theorem nodup_purgePool (paths : List String) (statFn : String → Option FileInfo)
    (symlink : String) (readlinkRes : Option String) (hnd : paths.Nodup) :
    (purgePool paths statFn symlink readlinkRes).Nodup := by
  unfold purgePool
  apply (List.perm_insertionSort _ _).symm.nodup
  by_cases hs : symlink = ""
  · rw [if_pos hs]
    exact hnd.filter _
  · rw [if_neg hs]
    cases readlinkRes with
    | none => exact hnd.filter _
    | some dst => exact (hnd.filter _).filter _

theorem keepCount_nonneg (rc : Int) (symlink : String) (readlinkRes : Option String)
    (hrc : 0 < rc) : 0 ≤ keepCount rc symlink readlinkRes := by
  unfold keepCount
  by_cases hp : (decide (symlink ≠ "") && readlinkRes.isSome) = true <;>
    simp [hp] <;> omega

theorem Time.equal_symm (a b : Time) : Time.equal a b = Time.equal b a := by
  simp [Time.equal, beq_iff_eq, eq_comm]

theorem getWriterM_allFail (format : Time → String) (st : FileState) (env : WriteEnv)
    (fails : List Nat) (hne : fails ≠ [])
    (hatt : env.attempts = fails.map CreateRes.fail)
    (hcond : (sizeExceededModel env.checkDue st.file.isSome st.maxFileSize env.stat
        || intervalExceededModel st env.now) = true) :
    getWriterM format st env
      = ({ st with
            baseTime := truncate env.now st.maxInterval
            generation := (nameForRotation st (intervalExceededModel st env.now)
              (format (truncate env.now st.maxInterval))).1 },
          Except.error (Err.wrapRotateFailed (Err.wrapCreateFailed
            (nameForRotation st (intervalExceededModel st env.now)
              (format (truncate env.now st.maxInterval))).2
            (Err.underlying (fails.getLastD 0))))) := by
  simp only [getWriterM]
  rw [if_pos hcond, hatt]
  simp only [rotateFileM]
  rw [rotateLoop_allFail _ _ fails none hne]

theorem getWriterM_okAttempt (format : Time → String) (st : FileState) (env : WriteEnv)
    (hcond : (sizeExceededModel env.checkDue st.file.isSome st.maxFileSize env.stat
        || intervalExceededModel st env.now) = true)
    (hatt : env.attempts = [CreateRes.ok]) :
    getWriterM format st env
      = ({ st with
            baseTime := truncate env.now st.maxInterval
            generation := (nameForRotation st (intervalExceededModel st env.now)
              (format (truncate env.now st.maxInterval))).1
            file := some { buffered := 0, closed := false }
            filename := (nameForRotation st (intervalExceededModel st env.now)
              (format (truncate env.now st.maxInterval))).2 },
          Except.ok (some { buffered := 0, closed := false })) := by
  simp only [getWriterM]
  rw [if_pos hcond, hatt]
  simp only [rotateFileM, rotateLoop]

/-- Claim C1 (counterexample): a write in a fresh slot whose single
creation attempt fails leaves `baseTime` advanced to the new slot while
`filename` still names the old file — the observable state is not what it
was before the rotation attempt, and `filename`/`baseTime` were updated
independently of each other. -/
theorem write_createExhausted_cex :
    (writeM fmtApp stBase envFailCreate 5).1.baseTime ≠ stBase.baseTime ∧
    (writeM fmtApp stBase envFailCreate 5).1.filename = stBase.filename := by
  decide

/-- Claim C1 (amended): when a rotation triggered by a Write makes at
least one creation attempt and all of them fail, the Write returns the
error chain wrapping the last underlying creation error, the active
handle and filename are unchanged (so later writes that trigger no new
rotation keep succeeding against the previous file), but `baseTime` and
`generation` are advanced to the attempted rotation's values before the
failure — `filename` and `baseTime` diverge on this path. -/
theorem write_createExhausted (format : Time → String) (st : FileState)
    (env : WriteEnv) (n : Nat) (fails : List Nat)
    (hne : fails ≠ [])
    (hatt : env.attempts = fails.map CreateRes.fail)
    (hcond : (sizeExceededModel env.checkDue st.file.isSome st.maxFileSize env.stat
        || intervalExceededModel st env.now) = true) :
    writeAllFailPost format st env n fails := by
  have hg := getWriterM_allFail format st env fails hne hatt hcond
  have hw : writeM format st env n
      = ({ st with
            baseTime := truncate env.now st.maxInterval
            generation := (nameForRotation st (intervalExceededModel st env.now)
              (format (truncate env.now st.maxInterval))).1 },
          WriteRes.res 0 (some (Err.wrapObtainFailed (Err.wrapRotateFailed
            (Err.wrapCreateFailed
              (nameForRotation st (intervalExceededModel st env.now)
                (format (truncate env.now st.maxInterval))).2
              (Err.underlying (fails.getLastD 0))))))) := by
    simp only [writeM, hg]
  refine ⟨by rw [hw], by rw [hw], by rw [hw], by rw [hw], by rw [hw], ?_⟩
  intro env2 m h hfile hbuf hdue hint
  have hpfile : (writeM format st env n).1.file = some h := by rw [hw]; exact hfile
  have hres := writeM_noTrigger format ((writeM format st env n).1) env2 m h
    hpfile hdue hint hbuf
  rw [hres]

/-- Witness for C1's amended theorem: the slot-350 write over `stBase`
with one failing creation attempt. -/
theorem write_createExhausted_witness :
    writeAllFailPost fmtApp stBase envFailCreate 5 [7] :=
  write_createExhausted fmtApp stBase envFailCreate 5 [7] (by decide) rfl (by decide)

/-- Claim C3 (counterexample): in one time slot with the constant template
`app.log`, the first size-triggered rotation targets `app.log.1`, and the
next size-triggered rotation computes the bare templated name again,
which differs from the open `app.log.1`, so it rotates back onto
`app.log` — reusing the filename already written at the start of the
slot, contradicting the claim that a previously used filename is never
reused. -/
theorem sizeRotation_reuse_cex :
    (writeM fmtApp stSized envSized 11).1.filename = "app.log.1" ∧
    (writeM fmtApp (writeM fmtApp stSized envSized 11).1 envSized 11).1.filename
      = "app.log" ∧
    (writeM fmtApp (writeM fmtApp stSized envSized 11).1 envSized 11).1.filename
      = stSized.filename := by
  decide

/-- Claim C3 (amended): a size-only rotation (size probe true, interval
probe false) that successfully creates its file always targets a filename
different from the currently open one — when the templated name collides
the generation is incremented and `.N` appended — and the generation never
decreases while `baseTime` stays in the same slot (equal as an instant);
the target may however repeat a filename used earlier in the slot. -/
theorem sizeRotation_fresh_target (format : Time → String) (st : FileState)
    (env : WriteEnv)
    (hsz : sizeExceededModel env.checkDue st.file.isSome st.maxFileSize env.stat
        = true)
    (hint : intervalExceededModel st env.now = false)
    (hatt : env.attempts = [CreateRes.ok]) :
    (getWriterM format st env).1.filename ≠ st.filename ∧
    st.generation ≤ (getWriterM format st env).1.generation ∧
    Time.equal (getWriterM format st env).1.baseTime st.baseTime = true := by
  have hcond : (sizeExceededModel env.checkDue st.file.isSome st.maxFileSize env.stat
      || intervalExceededModel st env.now) = true := by rw [hsz]; rfl
  have hg := getWriterM_okAttempt format st env hcond hatt
  rw [hint] at hg
  have heqbase : Time.equal st.baseTime (truncate env.now st.maxInterval) = true := by
    have h1 := hint
    unfold intervalExceededModel at h1
    cases hx : Time.equal st.baseTime (truncate env.now st.maxInterval)
    · rw [hx] at h1; simp at h1
    · rfl
  by_cases hfn : (format (truncate env.now st.maxInterval) == st.filename) = true
  · simp only [nameForRotation, Bool.false_eq_true, if_false, if_pos hfn] at hg
    refine ⟨?_, ?_, ?_⟩
    · rw [hg]
      intro heq
      have hlen := congrArg String.length heq
      rw [String.length_append, String.length_append] at hlen
      have hfn' : format (truncate env.now st.maxInterval) = st.filename :=
        eq_of_beq hfn
      rw [hfn'] at hlen
      have hdot : ("." : String).length = 1 := rfl
      omega
    · rw [hg]
      dsimp
      omega
    · rw [hg]
      rw [Time.equal_symm]
      exact heqbase
  · have hfn' : (format (truncate env.now st.maxInterval) == st.filename) = false :=
      by revert hfn; cases format (truncate env.now st.maxInterval) == st.filename <;>
        simp
    simp only [nameForRotation, Bool.false_eq_true, if_false, hfn'] at hg
    refine ⟨?_, ?_, ?_⟩
    · rw [hg]
      exact ne_of_beq_false hfn'
    · rw [hg]
    · rw [hg]
      rw [Time.equal_symm]
      exact heqbase

/-- Witness for C3's amended theorem: the first size-triggered rotation
over `stSized`. -/
theorem sizeRotation_fresh_target_witness :
    (getWriterM fmtApp stSized envSized).1.filename ≠ stSized.filename ∧
    stSized.generation ≤ (getWriterM fmtApp stSized envSized).1.generation ∧
    Time.equal (getWriterM fmtApp stSized envSized).1.baseTime stSized.baseTime
      = true :=
  sizeRotation_fresh_target fmtApp stSized envSized (by decide) (by decide) rfl

theorem finalizeHandle_idem (h : WriterHandle) :
    finalizeHandle (finalizeHandle h) = finalizeHandle h := by
  by_cases hc : h.closed = true <;> simp [finalizeHandle, hc]

/-- Claim C9 (counterexample): a Write issued after Close that triggers no
rotation is absorbed by the `bufio` buffer sitting over the closed handle
and returns success — contradicting the claim that every Write after
Close fails deterministically. -/
theorem write_after_close_succeeds_cex :
    (writeM fmtApp (closeM stBase).1 envQuiet 11).2 = WriteRes.res 11 none := by
  decide

/-- Claim C9 (amended): Close always returns nil and is idempotent — a
second Close leaves the state unchanged and again returns nil — but a
Write after Close does not deterministically fail: one that triggers no
rotation and fits the buffer returns success with the full byte count. -/
theorem close_idempotent_buffered_write (st : FileState) (format : Time → String)
    (env : WriteEnv) (n : Nat) (h : WriterHandle)
    (hfile : (closeM st).1.file = some h)
    (hbuf : h.buffered + n ≤ bufSize)
    (hdue : env.checkDue = false)
    (hint : intervalExceededModel (closeM st).1 env.now = false) :
    (closeM st).2 = none ∧
    closeM (closeM st).1 = ((closeM st).1, none) ∧
    (writeM format (closeM st).1 env n).2 = WriteRes.res n none := by
  refine ⟨?_, ?_, ?_⟩
  · cases hsf : st.file <;> simp [closeM, hsf]
  · cases hsf : st.file <;> simp [closeM, hsf, finalizeHandle_idem]
  · rw [writeM_noTrigger format ((closeM st).1) env n h hfile hdue hint hbuf]

/-- Witness for C9's amended theorem over the closed `stBase`. -/
theorem close_idempotent_buffered_write_witness :
    (closeM stBase).2 = none ∧
    closeM (closeM stBase).1 = ((closeM stBase).1, none) ∧
    (writeM fmtApp (closeM stBase).1 envQuiet 7).2 = WriteRes.res 7 none :=
  close_idempotent_buffered_write stBase fmtApp envQuiet 7
    { buffered := 0, closed := true } rfl (by decide) rfl (by decide)

/-- Claim C10 (counterexample): with a clock reading whose truncation is
the zero instant — here the zero time itself — the initial zero-valued
`baseTime` equals the truncation, so the first Write triggers no rotation
and panics on the nil writer, contradicting the claim that the first
Write always triggers a rotation because `baseTime` differs from the
truncation of any clock reading. -/
theorem newFile_zeroClock_cex :
    writeM fmtApp (NewFileM [])
      { now := { wall := 0, loc := Location.utc }, checkDue := false,
        stat := StatRes.otherErr, attempts := [] } 5
      = (NewFileM [], WriteRes.panicNil) := by decide

/-- Claim C10 (amended): a successful NewFile opens no handle (`file` is
nil) and leaves `filename`, `baseTime` and `maxAge` at their zero values
(no option can set `maxAge`), with the backoff field assigned the no-retry
Null policy; the first Write triggers a rotation for every clock reading
whose truncation is a nonzero instant, since the zero-valued `baseTime`
then differs from it. -/
theorem newFile_initial (opts : List OptionVal) (now : Time)
    (hnz : Time.abs (truncate now (NewFileM opts).maxInterval) ≠ 0) :
    (NewFileM opts).file = none ∧
    (NewFileM opts).filename = "" ∧
    (NewFileM opts).baseTime = { wall := 0, loc := Location.utc } ∧
    (NewFileM opts).maxAge = 0 ∧
    (NewFileM opts).backoff = BackoffPolicy.null ∧
    intervalExceededModel (NewFileM opts) now = true := by
  refine ⟨rfl, rfl, rfl, rfl, rfl, ?_⟩
  unfold intervalExceededModel
  have hbase : (NewFileM opts).baseTime = { wall := 0, loc := Location.utc } := rfl
  rw [hbase]
  cases hx : Time.equal { wall := 0, loc := Location.utc }
      (truncate now (NewFileM opts).maxInterval)
  · rfl
  · exfalso
    unfold Time.equal at hx
    have habs := eq_of_beq hx
    have h0 : Time.abs { wall := 0, loc := Location.utc } = 0 := rfl
    exact hnz (by rw [← habs, h0])

/-- Witness for C10's amended theorem with a 100ns slot and a reading in
the third slot. -/
theorem newFile_initial_witness :
    (NewFileM [OptionVal.withMaxInterval 100]).file = none ∧
    (NewFileM [OptionVal.withMaxInterval 100]).filename = "" ∧
    (NewFileM [OptionVal.withMaxInterval 100]).baseTime
      = { wall := 0, loc := Location.utc } ∧
    (NewFileM [OptionVal.withMaxInterval 100]).maxAge = 0 ∧
    (NewFileM [OptionVal.withMaxInterval 100]).backoff = BackoffPolicy.null ∧
    intervalExceededModel (NewFileM [OptionVal.withMaxInterval 100])
      { wall := 250, loc := Location.utc } = true :=
  newFile_initial [OptionVal.withMaxInterval 100]
    { wall := 250, loc := Location.utc } (by decide)

/-- Claim C8: whenever the throttled size check stats the current file
(the throttle is due and a file is open), a not-found stat failure makes
the probe report exceeded, and any other stat failure makes it report
false. -/
theorem sizeExceeded_stat_failures (mfs : Int) :
    sizeExceededModel true true mfs StatRes.notFound = true ∧
    sizeExceededModel true true mfs StatRes.otherErr = false :=
  ⟨rfl, rfl⟩

/-- Claim C7 (counterexample): with `maxFileSize = 0`, a due check on an
open, statable, empty file reports exceeded — the guard in the source is
`maxFileSize >= 0`, not `> 0` — contradicting the claim that
`maxFileSize <= 0` makes the probe always return false. -/
theorem sizeExceeded_zeroMax_cex :
    sizeExceededModel true true 0 (StatRes.ok 0) = true := by decide

/-- Claim C7 (amended): the probe returns false before the throttle
deadline and when no file is open; with `maxFileSize < 0` it returns
false whenever the stat does not report not-found. The remaining cases —
a missing file (any `maxFileSize`), and `maxFileSize = 0` with a
successful stat — report exceeded. -/
theorem sizeExceeded_negMax_false (checkDue filePresent : Bool) (stat : StatRes)
    (mfs : Int) :
    sizeExceededModel false filePresent mfs stat = false ∧
    sizeExceededModel checkDue false mfs stat = false ∧
    (mfs < 0 → stat ≠ StatRes.notFound →
      sizeExceededModel checkDue filePresent mfs stat = false) := by
  refine ⟨rfl, by cases checkDue <;> rfl, ?_⟩
  intro hneg hnf
  cases checkDue
  · rfl
  cases filePresent
  · rfl
  cases stat with
  | notFound => exact absurd rfl hnf
  | otherErr => rfl
  | ok size =>
    have hdec : ¬ (0 ≤ mfs) := by omega
    simp [sizeExceededModel, hdec]

/-- Witness for C7's amended theorem at a concrete negative size limit. -/
theorem sizeExceeded_negMax_false_witness :
    sizeExceededModel true true (-1) (StatRes.ok 5) = false :=
  (sizeExceeded_negMax_false true true (StatRes.ok 5) (-1)).2.2 (by decide) (by decide)

/-- Claim C6: in a purge pass with a positive rotation count, after
excluding lock/staging artifacts and the symlink target and sorting the
remaining candidates lexicographically by path (`purgePool`), the pass
marks for deletion exactly the candidates before the last `keepCount`
ones (rotation count, minus one when a symlink target was protected) —
so exactly the `keepCount` lexicographically-greatest candidates are
kept, disjoint from the deletion list. Stated for passes where age-based
purging is disabled (`maxAge ≤ 0`, the only reachable configuration) and
every candidate is statable and not itself symlink-moded. -/
theorem purge_keeps_count_greatest (paths : List String)
    (statFn : String → Option FileInfo) (symlink : String)
    (readlinkRes : Option String) (maxAge now rc : Int)
    (hage : maxAge ≤ 0) (hrc : 0 < rc) (hnd : paths.Nodup)
    (hstat : ∀ p ∈ paths, ∃ fi, statFn p = some fi ∧ fi.isSymlink = false) :
    purgeOld paths statFn symlink readlinkRes maxAge now rc
      = (purgePool paths statFn symlink readlinkRes).take
          ((purgePool paths statFn symlink readlinkRes).length
            - (keepCount rc symlink readlinkRes).toNat) ∧
    List.Disjoint
      ((purgePool paths statFn symlink readlinkRes).drop
        ((purgePool paths statFn symlink readlinkRes).length
          - (keepCount rc symlink readlinkRes).toNat))
      (purgeOld paths statFn symlink readlinkRes maxAge now rc) := by
  have hsplit : purgeSplit statFn maxAge (now - maxAge)
      (purgePool paths statFn symlink readlinkRes)
      = ([], purgePool paths statFn symlink readlinkRes) :=
    purgeSplit_clean statFn maxAge (now - maxAge) hage _
      (fun p hp => hstat p (mem_purgePool paths statFn symlink readlinkRes p hp))
  have hc0 : 0 ≤ keepCount rc symlink readlinkRes :=
    keepCount_nonneg rc symlink readlinkRes hrc
  have hmain : purgeOld paths statFn symlink readlinkRes maxAge now rc
      = (purgePool paths statFn symlink readlinkRes).take
          ((purgePool paths statFn symlink readlinkRes).length
            - (keepCount rc symlink readlinkRes).toNat) := by
    simp only [purgeOld]
    rw [hsplit, if_pos hrc]
    dsimp only
    by_cases hlen : ((purgePool paths statFn symlink readlinkRes).length : Int)
        > keepCount rc symlink readlinkRes
    · rw [if_pos hlen, List.nil_append]
      congr 1
      omega
    · rw [if_neg hlen]
      have hz : (purgePool paths statFn symlink readlinkRes).length
          - (keepCount rc symlink readlinkRes).toNat = 0 := by omega
      rw [hz, List.take_zero]
  refine ⟨hmain, ?_⟩
  rw [hmain]
  exact (List.disjoint_take_drop
    (nodup_purgePool paths statFn symlink readlinkRes hnd) (le_refl _)).symm

/-- Witness for C6 at seven rotated files with rotation count five and no
symlink: the two lexicographically-smallest files are marked, the five
greatest kept. -/
theorem purge_keeps_count_greatest_witness :
    purgeOld pathsSeven statPlain "" none 0 0 5
      = (purgePool pathsSeven statPlain "" none).take
          ((purgePool pathsSeven statPlain "" none).length
            - (keepCount 5 "" none).toNat) ∧
    List.Disjoint
      ((purgePool pathsSeven statPlain "" none).drop
        ((purgePool pathsSeven statPlain "" none).length
          - (keepCount 5 "" none).toNat))
      (purgeOld pathsSeven statPlain "" none 0 0 5) :=
  purge_keeps_count_greatest pathsSeven statPlain "" none 0 0 5
    (by decide) (by decide) (by decide)
    (fun p _ => ⟨{ modTime := 0, isSymlink := false }, rfl, rfl⟩)

/-- Claim C4 (code bug): in a purge pass with `maxAge = 50` at `now = 120`
(cutoff 70), the single candidate `x.log` with modification time 100 lies
after the cutoff — the claim says such an age-protected file is never
deleted — yet `purgeOld` appends it to the deletion list and returns it. -/
theorem purge_deletes_age_protected :
    purgeOld ["x.log"] (fun _ => some { modTime := 100, isSymlink := false })
      "" none 50 120 0 = ["x.log"] := by decide

/-- Claim C5 (code bug): the critical section of a successful swap with an
old handle open runs `finalizeWriter` (flush and close of the old handle)
strictly before the new handle is installed — the trace evaluates to
finalize-then-install-then-record, so there is a point where the previous
handle is closed while no new handle is installed, contradicting the claim
(and the source's own comment, which describes assign-then-flush with an
asynchronous close). -/
theorem swap_finalizes_old_first :
    swapCriticalSection true
      = [SwapEvent.finalizeOld, SwapEvent.installNew, SwapEvent.recordFilename] := by
  decide

end Rotating
